import Mathlib

/-!
Verification of the libkpa autoscaling decision library.

The Go source is shallowly embedded: float64 values become exact rationals
(the spec states that all ceils/floors are on real arithmetic), int32
values become unbounded integers, `time.Time`/`time.Duration` become
integer second counts, and every stateful method becomes a pure function
returning the updated state.  Each definition mirrors one Go function,
with the mirrored file and symbol named in its doc comment.
-/

namespace Libkpa

/-- Mirrors `api.AutoscalerConfig` (docs/API.md; the fields read by
`algorithm/sliding_window.go`).  Durations are whole seconds. -/
structure AutoscalerConfig where
  maxScaleUpRate : ℚ
  maxScaleDownRate : ℚ
  targetValue : ℚ
  totalTargetValue : ℚ
  burstThreshold : ℚ
  stableWindow : ℤ
  scaleDownDelay : ℤ
  minScale : ℤ
  maxScale : ℤ
  activationScale : ℤ
deriving DecidableEq

/-- Mirrors the `api.MetricSnapshot` value consumed by
`SlidingWindowAutoscaler.Scale` (fields actually read: `StableValue`,
`BurstValue`, `ReadyPodCount`). -/
structure MetricSnapshot where
  stableValue : ℚ
  burstValue : ℚ
  readyPodCount : ℤ
deriving DecidableEq

/-- Mirrors `api.ScaleRecommendation` (the fields set by
`algorithm/sliding_window.go`). -/
structure ScaleRecommendation where
  desiredPodCount : ℤ
  scaleValid : Bool
  inBurstMode : Bool
deriving DecidableEq

/-! ### The time-bucketed metric aggregator (src/unnamed/part_003, package
metrics).  Timestamps are whole seconds (ℕ); the Go zero `time.Time` used
as the "never written" sentinel for `firstWrite`/`lastWrite` becomes
`none` (a Go zero time never equals an aligned epoch bucket time, every
epoch time is `After` it, and `Sub` from it saturates above any window,
which selects the full-reset path on first write).  The bucket slice is
modelled as an index function together with its length. -/

/-- Mirrors the state of `metrics.TimedFloat64Buckets`
(src/unnamed/part_003, lines 375-395). -/
structure TimedFloat64Buckets where
  buckets : Nat → ℚ
  numBuckets : Nat
  firstWrite : Option Nat
  lastWrite : Option Nat
  granularity : Nat
  window : Nat
  windowTotal : ℚ

/-- Mirrors `metrics.NewTimedFloat64Buckets` (src/unnamed/part_003, lines
398-405): `numBuckets = (window + granularity - 1) / granularity`. -/
def NewTimedFloat64Buckets (window granularity : Nat) : TimedFloat64Buckets :=
  { buckets := fun _ => 0
    numBuckets := (window + granularity - 1) / granularity
    firstWrite := none
    lastWrite := none
    granularity := granularity
    window := window
    windowTotal := 0 }

/-- Mirrors `metrics.TimedFloat64Buckets.timeToIndex`
(src/unnamed/part_003, lines 545-547). -/
def TimedFloat64Buckets.timeToIndex (t : TimedFloat64Buckets) (tm : Nat) : Nat :=
  tm / t.granularity

/-- Mirrors the paired Go statements
`t.buckets[idx%len(t.buckets)] += value; t.windowTotal += value`. -/
def TimedFloat64Buckets.addToBucket (t : TimedFloat64Buckets) (idx : Nat) (value : ℚ) :
    TimedFloat64Buckets :=
  { t with
    buckets := Function.update t.buckets (idx % t.numBuckets)
      (t.buckets (idx % t.numBuckets) + value)
    windowTotal := t.windowTotal + value }

/-- Mirrors the bucket-clearing loop of `Record` (src/unnamed/part_003,
lines 443-447), applied to the list of raw indices the Go `for` visits:
each visited position is subtracted from the running total and zeroed. -/
def clearBuckets (buckets : Nat → ℚ) (total : ℚ) (n : Nat) :
    List Nat → (Nat → ℚ) × ℚ
  | [] => (buckets, total)
  | i :: rest =>
      clearBuckets (Function.update buckets (i % n) 0) (total - buckets (i % n)) n rest

/-- Mirrors `metrics.TimedFloat64Buckets.Record` (src/unnamed/part_003,
lines 408-454). -/
def TimedFloat64Buckets.record (t : TimedFloat64Buckets) (now : Nat) (value : ℚ) :
    TimedFloat64Buckets :=
  let bucketTime := now / t.granularity * t.granularity
  let writeIdx := t.timeToIndex now
  match t.lastWrite with
  | some lw =>
      if lw = bucketTime then t.addToBucket writeIdx value
      else if bucketTime + t.window < lw then t
      else
        let fw1 : Option Nat :=
          match t.firstWrite with
          | none => some bucketTime
          | some fw => if bucketTime < fw then some bucketTime else some fw
        let t1 :=
          if lw < bucketTime then
            if t.window ≤ bucketTime - lw then
              { t with buckets := fun _ => 0, windowTotal := 0,
                       firstWrite := some bucketTime, lastWrite := some bucketTime }
            else
              let c := clearBuckets t.buckets t.windowTotal t.numBuckets
                (List.range' (t.timeToIndex lw + 1) (writeIdx - t.timeToIndex lw))
              { t with buckets := c.1, windowTotal := c.2, firstWrite := fw1,
                       lastWrite := some bucketTime }
          else { t with firstWrite := fw1 }
        t1.addToBucket writeIdx value
  | none =>
      (({ t with buckets := fun _ => 0, windowTotal := 0,
                 firstWrite := some bucketTime,
                 lastWrite := some bucketTime } : TimedFloat64Buckets)).addToBucket
        writeIdx value

/-- Mirrors `metrics.TimedFloat64Buckets.IsEmptyLocked`
(src/unnamed/part_003, lines 501-503): `now.Sub(lastWrite) > window`
(always true against the zero time). -/
def TimedFloat64Buckets.isEmptyLocked (t : TimedFloat64Buckets) (now : Nat) : Bool :=
  match t.lastWrite with
  | none => true
  | some lw => decide (t.window < now - lw)

/-- Mirrors `metrics.TimedFloat64Buckets.WindowAverage`
(src/unnamed/part_003, lines 457-489).  `firstWrite.getD 0` stands for a
field that is always set when `lastWrite` is set. -/
def TimedFloat64Buckets.windowAverage (t : TimedFloat64Buckets) (now0 : Nat) : ℚ :=
  let now := now0 / t.granularity * t.granularity
  if t.isEmptyLocked now then 0
  else
    match t.lastWrite with
    | none => 0
    | some lw =>
        if now ≤ lw then
          let numB := min ((lw - t.firstWrite.getD 0) / t.granularity + 1) t.numBuckets
          t.windowTotal / (numB : ℚ)
        else if now - lw < t.window then
          let startIdx := t.timeToIndex lw
          let endIdx := t.timeToIndex now
          let total := (List.range' (startIdx + 1) (endIdx - startIdx)).foldl
            (fun acc i => acc - t.buckets (i % t.numBuckets)) t.windowTotal
          let numB := min ((lw - t.firstWrite.getD 0) / t.granularity + 1)
            (t.numBuckets - (endIdx - startIdx))
          total / (numB : ℚ)
        else 0

/-- Feeds a list of (timestamp, value) records through `record`. -/
def applyRecords (t : TimedFloat64Buckets) : List (Nat × ℚ) → TimedFloat64Buckets
  | [] => t
  | (tm, v) :: rest => applyRecords (t.record tm v) rest

/-- The filled bucket count of the spec:
`min((lastWrite - firstWrite)/granularity + 1, bucketCount)`. -/
def TimedFloat64Buckets.filledBucketCount (t : TimedFloat64Buckets) : Nat :=
  match t.lastWrite, t.firstWrite with
  | some lw, some fw => min ((lw - fw) / t.granularity + 1) t.numBuckets
  | _, _ => 0

/-- The sum of the `filledBucketCount` most-recent buckets, walking the
ring backwards from `lastWrite`'s bucket. -/
def TimedFloat64Buckets.sumRecentBuckets (t : TimedFloat64Buckets) : ℚ :=
  match t.lastWrite with
  | some lw =>
      ∑ k ∈ Finset.range t.filledBucketCount,
        t.buckets ((lw / t.granularity - k) % t.numBuckets)
  | none => 0

/-- Go `float64` to `int32` conversion: truncation toward zero (overflow
disregarded, as for every `int32` in this embedding). -/
def truncToInt (v : ℚ) : ℤ :=
  if 0 ≤ v then ⌊v⌋ else ⌈v⌉

/-- Mirrors `TimeWindow` (src/unnamed/part_003, lines 549-552, the
`maxtimewindow` package imported by `algorithm/sliding_window.go`): the
max/delay window for scaling decisions is a wrapper around a
`TimedFloat64Buckets` aggregator. -/
structure TimeWindow where
  window : TimedFloat64Buckets

/-- Mirrors `NewTimeWindow` (src/unnamed/part_003, lines 554-559): wraps
`NewTimedFloat64Buckets(duration, granularity)`.  The durations reaching
it (`ScaleDownDelay`, `scaleDownDelayGranularity`) are non-negative whole
seconds, hence the `Int.toNat`. -/
def newTimeWindow (duration granularity : ℤ) : TimeWindow :=
  { window := NewTimedFloat64Buckets duration.toNat granularity.toNat }

/-- Mirrors `TimeWindow.Record` (src/unnamed/part_003, lines 561-564):
delegates to `TimedFloat64Buckets.Record` with `float64(value)`. -/
def TimeWindow.record (w : TimeWindow) (now : ℤ) (value : ℤ) : TimeWindow :=
  { window := w.window.record now.toNat (value : ℚ) }

/-- Mirrors `TimeWindow.Current` (src/unnamed/part_003, lines 566-580):
the maximum of `int32(v)` over ALL ring buckets, starting from 0 (no
timestamp filtering). -/
def TimeWindow.current (w : TimeWindow) : ℤ :=
  (List.range w.window.numBuckets).foldl
    (fun acc i => max acc (truncToInt (w.window.buckets i))) 0

/-- Mirrors the state of `algorithm.SlidingWindowAutoscaler`
(`algorithm/sliding_window.go`, lines 33-45).  The Go zero `time.Time`
used as the "not in burst mode" sentinel becomes `none`. -/
structure SlidingWindowAutoscaler where
  config : AutoscalerConfig
  burstTime : Option ℤ
  maxBurstPods : ℤ
  maxTimeWindow : Option TimeWindow

/-- Mirrors `scaleDownDelayGranularity = 2 * time.Second`
(`algorithm/sliding_window.go`, line 48). -/
def scaleDownDelayGranularity : ℤ := 2

/-- Mirrors `algorithm.NewSlidingWindowAutoscaler`
(`algorithm/sliding_window.go`, lines 51-75) on the path where config
validation succeeds.  The Go constructor reads the wall clock
(`result.burstTime = time.Now()`, line 72); that read is made explicit
here as the `wallClockNow` argument. -/
def newSlidingWindowAutoscaler (config : AutoscalerConfig) (wallClockNow : ℤ) :
    SlidingWindowAutoscaler :=
  { config := config
    burstTime := some wallClockNow
    maxBurstPods := 0
    maxTimeWindow :=
      if 0 < config.scaleDownDelay then
        some (newTimeWindow config.scaleDownDelay scaleDownDelayGranularity)
      else none }

/-- Mirrors lines 83-86 of `algorithm/sliding_window.go`: a zero ready-pod
count is replaced by 1 to avoid division by zero. -/
def effectiveReadyPods (snapshot : MetricSnapshot) : ℤ :=
  if snapshot.readyPodCount = 0 then 1 else snapshot.readyPodCount

/-- Mirrors line 100 of `algorithm/sliding_window.go`:
`int32(math.Ceil(MaxScaleUpRate * float64(readyPodCount)))`. -/
def maxScaleUp (cfg : AutoscalerConfig) (ready : ℤ) : ℤ :=
  ⌈cfg.maxScaleUpRate * (ready : ℚ)⌉

/-- Mirrors line 101 of `algorithm/sliding_window.go`:
`int32(math.Floor(float64(readyPodCount) / MaxScaleDownRate))`. -/
def maxScaleDown (cfg : AutoscalerConfig) (ready : ℤ) : ℤ :=
  ⌊(ready : ℚ) / cfg.maxScaleDownRate⌋

/-- Mirrors lines 104-112 of `algorithm/sliding_window.go`: raw pod count
from an observed value, per-pod target first, else total target, else 0
(the Go `var ... int32` default). -/
def rawPodCount (cfg : AutoscalerConfig) (ready : ℤ) (observed : ℚ) : ℤ :=
  if 0 < cfg.targetValue then ⌈observed / cfg.targetValue⌉
  else if 0 < cfg.totalTargetValue then ⌈(ready : ℚ) * observed / cfg.totalTargetValue⌉
  else 0

/-- Mirrors lines 115-116 of `algorithm/sliding_window.go`:
`min(max(raw, maxScaleDown), maxScaleUp)`. -/
def limited (raw down up : ℤ) : ℤ := min (max raw down) up

/-- Mirrors lines 119-128 of `algorithm/sliding_window.go`: the activation
floor, applied only when `ActivationScale > 1` and the raw count is
positive and the desired count is below the floor. -/
def applyActivation (cfg : AutoscalerConfig) (raw desired : ℤ) : ℤ :=
  if 1 < cfg.activationScale ∧ 0 < raw ∧ desired < cfg.activationScale then
    cfg.activationScale
  else desired

/-- Mirrors line 131 of `algorithm/sliding_window.go`:
`float64(rawBurstPodCount)/float64(readyPodCount) >= BurstThreshold`. -/
def isOverBurstThreshold (cfg : AutoscalerConfig) (rawBurst ready : ℤ) : Bool :=
  decide (cfg.burstThreshold ≤ (rawBurst : ℚ) / (ready : ℚ))

/-- Mirrors the burst-mode switch, lines 132-148 of
`algorithm/sliding_window.go`.  Result: (new burst time, new high-water
mark, in burst mode after the switch). -/
def burstSwitch (cfg : AutoscalerConfig) (burstTime : Option ℤ) (maxBurstPods : ℤ)
    (isOver : Bool) (now : ℤ) : Option ℤ × ℤ × Bool :=
  if isOver then (some now, maxBurstPods, true)
  else
    match burstTime with
    | some bt =>
        if bt + cfg.stableWindow < now then (none, 0, false)
        else (some bt, maxBurstPods, true)
    | none => (none, maxBurstPods, false)

/-- Mirrors lines 171-177 of `algorithm/sliding_window.go`: raise to
`MinScale` when positive, then cap at `MaxScale` when positive. -/
def applyBounds (cfg : AutoscalerConfig) (desired : ℤ) : ℤ :=
  let d2 := if 0 < cfg.minScale ∧ desired < cfg.minScale then cfg.minScale else desired
  if 0 < cfg.maxScale ∧ cfg.maxScale < d2 then cfg.maxScale else d2

/-- Mirrors `algorithm.SlidingWindowAutoscaler.Scale`
(`algorithm/sliding_window.go`, lines 78-184), returning the
recommendation together with the post-call state. -/
def SlidingWindowAutoscaler.scale (a : SlidingWindowAutoscaler)
    (snapshot : MetricSnapshot) (now : ℤ) :
    ScaleRecommendation × SlidingWindowAutoscaler :=
  let readyPodCount := effectiveReadyPods snapshot
  if snapshot.stableValue < 0 ∨ snapshot.burstValue < 0 then
    ({ desiredPodCount := 0, scaleValid := false, inBurstMode := false }, a)
  else
    let maxUp := maxScaleUp a.config readyPodCount
    let maxDown := maxScaleDown a.config readyPodCount
    let rawStable := rawPodCount a.config readyPodCount snapshot.stableValue
    let rawBurst := rawPodCount a.config readyPodCount snapshot.burstValue
    let desiredStable :=
      applyActivation a.config rawStable (limited rawStable maxDown maxUp)
    let desiredBurst :=
      applyActivation a.config rawBurst (limited rawBurst maxDown maxUp)
    let isOver := isOverBurstThreshold a.config rawBurst readyPodCount
    let st := burstSwitch a.config a.burstTime a.maxBurstPods isOver now
    let inBurst := st.2.2
    let afterBurst :=
      if inBurst then max st.2.1 (max desiredStable desiredBurst)
      else desiredStable
    let maxBurstPods1 := if inBurst then max st.2.1 (max desiredStable desiredBurst) else st.2.1
    let windowStep :=
      match a.maxTimeWindow with
      | some w =>
          let w1 := w.record now afterBurst
          (w1.current, some w1)
      | none => (afterBurst, (none : Option TimeWindow))
    ({ desiredPodCount := applyBounds a.config windowStep.1, scaleValid := true,
       inBurstMode := inBurst },
     { a with burstTime := st.1, maxBurstPods := maxBurstPods1,
              maxTimeWindow := windowStep.2 })

/-- Mirrors `algorithm.SlidingWindowAutoscaler.Update`
(`algorithm/sliding_window.go`, lines 186-203) on the path where config
validation succeeds: the config is replaced, and the delay window is
replaced only when the new `ScaleDownDelay` is positive. -/
def SlidingWindowAutoscaler.update (a : SlidingWindowAutoscaler)
    (config : AutoscalerConfig) : SlidingWindowAutoscaler :=
  { a with
    config := config
    maxTimeWindow :=
      if 0 < config.scaleDownDelay then
        some (newTimeWindow config.scaleDownDelay scaleDownDelayGranularity)
      else a.maxTimeWindow }

/-- Mirrors lines 104-112 of the panic-vocabulary variant of the algorithm
(src/unnamed/part_000): unlike `rawPodCount` (the burst-vocabulary file),
the total-target branch does not multiply by the ready pod count. -/
def rawPodCountPanic (cfg : AutoscalerConfig) (observed : ℚ) : ℤ :=
  if 0 < cfg.targetValue then ⌈observed / cfg.targetValue⌉
  else if 0 < cfg.totalTargetValue then ⌈observed / cfg.totalTargetValue⌉
  else 0

/-- Mirrors `SlidingWindowAutoscaler.Scale` of the panic-vocabulary variant
(src/unnamed/part_000, lines 78-184).  Its `panicTime`, `maxPanicPods` and
`InPanicMode` are identified with the burst-vocabulary `burstTime`,
`maxBurstPods` and `InBurstMode` fields (the renaming of claim C10); the
two files differ only in the raw pod count computation. -/
def SlidingWindowAutoscaler.scalePanic (a : SlidingWindowAutoscaler)
    (snapshot : MetricSnapshot) (now : ℤ) :
    ScaleRecommendation × SlidingWindowAutoscaler :=
  let readyPodCount := effectiveReadyPods snapshot
  if snapshot.stableValue < 0 ∨ snapshot.burstValue < 0 then
    ({ desiredPodCount := 0, scaleValid := false, inBurstMode := false }, a)
  else
    let maxUp := maxScaleUp a.config readyPodCount
    let maxDown := maxScaleDown a.config readyPodCount
    let rawStable := rawPodCountPanic a.config snapshot.stableValue
    let rawBurst := rawPodCountPanic a.config snapshot.burstValue
    let desiredStable :=
      applyActivation a.config rawStable (limited rawStable maxDown maxUp)
    let desiredBurst :=
      applyActivation a.config rawBurst (limited rawBurst maxDown maxUp)
    let isOver := isOverBurstThreshold a.config rawBurst readyPodCount
    let st := burstSwitch a.config a.burstTime a.maxBurstPods isOver now
    let inBurst := st.2.2
    let afterBurst :=
      if inBurst then max st.2.1 (max desiredStable desiredBurst)
      else desiredStable
    let maxBurstPods1 := if inBurst then max st.2.1 (max desiredStable desiredBurst) else st.2.1
    let windowStep :=
      match a.maxTimeWindow with
      | some w =>
          let w1 := w.record now afterBurst
          (w1.current, some w1)
      | none => (afterBurst, (none : Option TimeWindow))
    ({ desiredPodCount := applyBounds a.config windowStep.1, scaleValid := true,
       inBurstMode := inBurst },
     { a with burstTime := st.1, maxBurstPods := maxBurstPods1,
              maxTimeWindow := windowStep.2 })

/-- Feeds a sequence of (snapshot, now) inputs through `scale`, collecting
the emitted recommendations (the per-tick loop of the host, spec section 2). -/
def runScale (a : SlidingWindowAutoscaler) :
    List (MetricSnapshot × ℤ) → List ScaleRecommendation
  | [] => []
  | (s, t) :: rest =>
      let r := a.scale s t
      r.1 :: runScale r.2 rest

/-- Mirrors `manager.Manager.Scale` (`manager/manager.go`, lines 155-198)
as a function of the recommendations collected from the registered
scalers (one list entry per registered scaler, in iteration order). -/
def managerScale (minReplicas maxReplicas : ℤ) (recs : List ScaleRecommendation)
    (readyPods : ℤ) : ℤ :=
  if recs.isEmpty then minReplicas
  else
    let maxDesired := recs.foldl
      (fun acc r => if r.scaleValid ∧ acc < r.desiredPodCount then r.desiredPodCount else acc) 0
    let validScalers := (recs.filter (fun r => r.scaleValid)).length
    if validScalers = 0 then readyPods
    else
      let m1 := if maxDesired < minReplicas then minReplicas else maxDesired
      if 0 < maxReplicas ∧ maxReplicas < m1 then maxReplicas else m1

/-! ### Helper lemmas about the scaling algorithm -/

theorem burstSwitch_high_water (cfg : AutoscalerConfig) (bt : Option ℤ) (m : ℤ)
    (o : Bool) (now : ℤ) (h : (burstSwitch cfg bt m o now).2.2 = true) :
    (burstSwitch cfg bt m o now).2.1 = m := by
  unfold burstSwitch at *
  cases o with
  | true => simp
  | false =>
    cases bt with
    | none => simp at h
    | some b =>
      by_cases hb : b + cfg.stableWindow < now
      · simp only [Bool.false_eq_true, if_false, if_pos hb] at h
      · simp [hb]

theorem applyActivation_of_raw_zero (cfg : AutoscalerConfig) (d : ℤ) :
    applyActivation cfg 0 d = d := by
  unfold applyActivation
  simp

theorem applyBounds_mono (cfg : AutoscalerConfig) {d e : ℤ} (h : d ≤ e) :
    applyBounds cfg d ≤ applyBounds cfg e := by
  unfold applyBounds
  dsimp only
  split_ifs <;> omega

theorem maxScaleDown_le_ready (cfg : AutoscalerConfig) (r : ℤ) (hr : 0 ≤ r)
    (h : 1 ≤ cfg.maxScaleDownRate) : maxScaleDown cfg r ≤ r := by
  unfold maxScaleDown
  have h0 : (0 : ℚ) < cfg.maxScaleDownRate := lt_of_lt_of_le one_pos h
  have hq : (r : ℚ) / cfg.maxScaleDownRate ≤ (r : ℚ) := by
    rw [div_le_iff h0]
    have : (0 : ℚ) ≤ (r : ℚ) := by exact_mod_cast hr
    nlinarith
  calc ⌊(r : ℚ) / cfg.maxScaleDownRate⌋ ≤ ⌊(r : ℚ)⌋ := Int.floor_le_floor hq
    _ = r := Int.floor_intCast r

theorem ready_le_maxScaleUp (cfg : AutoscalerConfig) (r : ℤ) (hr : 0 ≤ r)
    (h : 1 ≤ cfg.maxScaleUpRate) : r ≤ maxScaleUp cfg r := by
  unfold maxScaleUp
  have hq : (r : ℚ) ≤ cfg.maxScaleUpRate * (r : ℚ) := by
    have : (0 : ℚ) ≤ (r : ℚ) := by exact_mod_cast hr
    nlinarith
  calc r = ⌈(r : ℚ)⌉ := (Int.ceil_intCast r).symm
    _ ≤ ⌈cfg.maxScaleUpRate * (r : ℚ)⌉ := Int.ceil_le_ceil hq

theorem effectiveReadyPods_pos (snap : MetricSnapshot)
    (h : 0 ≤ snap.readyPodCount) : 0 < effectiveReadyPods snap := by
  unfold effectiveReadyPods
  split <;> omega

/-! ### Claim theorems -/

/-- C5 (confirmed): in every `Scale` call, when `activationScale > 1`,
the raw count is positive and the rate-limited desired count is below
`activationScale`, the desired count is raised to `activationScale`
(this is the `applyActivation` step applied to both the stable and the
burst value); and when both raw counts are zero the activation floor is
never applied, so the recommendation is the same as with
`activationScale = 1` and scale-to-zero is preserved. -/
theorem activation_floor_only_with_demand
    (a : SlidingWindowAutoscaler) (snap : MetricSnapshot) (now : ℤ) :
    (∀ raw desired : ℤ, 1 < a.config.activationScale → 0 < raw →
        desired < a.config.activationScale →
        applyActivation a.config raw desired = a.config.activationScale) ∧
    (rawPodCount a.config (effectiveReadyPods snap) snap.stableValue = 0 →
      rawPodCount a.config (effectiveReadyPods snap) snap.burstValue = 0 →
      (a.scale snap now).1 =
        (SlidingWindowAutoscaler.scale
          { a with config := { a.config with activationScale := 1 } } snap now).1) := by
  constructor
  · intro raw desired h1 h2 h3
    unfold applyActivation
    rw [if_pos ⟨h1, h2, h3⟩]
  · intro hS hB
    obtain ⟨cfg, bt0, mbp, mtw⟩ := a
    obtain ⟨u, d, tv, ttv, th, sw, sdd, mn, mx, act⟩ := cfg
    simp only at hS hB
    have hS2 : rawPodCount ⟨u, d, tv, ttv, th, sw, sdd, mn, mx, 1⟩
        (effectiveReadyPods snap) snap.stableValue = 0 := hS
    have hB2 : rawPodCount ⟨u, d, tv, ttv, th, sw, sdd, mn, mx, 1⟩
        (effectiveReadyPods snap) snap.burstValue = 0 := hB
    unfold SlidingWindowAutoscaler.scale
    simp only [hS, hB, hS2, hB2, applyActivation_of_raw_zero]
    simp only [maxScaleUp, maxScaleDown, isOverBurstThreshold, burstSwitch,
      applyBounds, limited]
    by_cases hv : snap.stableValue < 0 ∨ snap.burstValue < 0
    · rw [if_pos hv, if_pos hv]
    · rw [if_neg hv, if_neg hv]

/-- C3 (amended theorem): for a scaler in burst mode seeing an
under-threshold snapshot, the burst mode is exited (burst time cleared,
high-water mark reset, `inBurstMode = false`) exactly when
`now - burstTime` STRICTLY exceeds `stableWindow`; at
`now - burstTime ≤ stableWindow` it stays in burst mode with `burstTime`
unchanged.  (The claim's exit condition `delta ≥ stableWindow` is off by
one bucket: the code tests `burstTime.Add(stableWindow).Before(now)`.) -/
theorem burst_exit_strictly_after_stable_window
    (a : SlidingWindowAutoscaler) (snap : MetricSnapshot) (now bt : ℤ)
    (hbt : a.burstTime = some bt)
    (hs : 0 ≤ snap.stableValue) (hb : 0 ≤ snap.burstValue)
    (hunder : isOverBurstThreshold a.config
        (rawPodCount a.config (effectiveReadyPods snap) snap.burstValue)
        (effectiveReadyPods snap) = false) :
    (a.config.stableWindow < now - bt →
        (a.scale snap now).1.inBurstMode = false ∧
        (a.scale snap now).2.burstTime = none ∧
        (a.scale snap now).2.maxBurstPods = 0) ∧
    (now - bt ≤ a.config.stableWindow →
        (a.scale snap now).1.inBurstMode = true ∧
        (a.scale snap now).2.burstTime = some bt) := by
  have hvalid : ¬(snap.stableValue < 0 ∨ snap.burstValue < 0) := by
    push_neg
    exact ⟨hs, hb⟩
  constructor
  · intro hlt
    have hcond : bt + a.config.stableWindow < now := by omega
    unfold SlidingWindowAutoscaler.scale
    rw [if_neg hvalid]
    simp only [hbt, hunder]
    unfold burstSwitch
    simp [hcond]
  · intro hle
    have hcond : ¬(bt + a.config.stableWindow < now) := by omega
    unfold SlidingWindowAutoscaler.scale
    rw [if_neg hvalid]
    simp only [hbt, hunder]
    unfold burstSwitch
    simp [hcond]

/-- C3 (counterexample): a scaler in burst mode since time 0 with
`stableWindow = 60` that sees an under-threshold snapshot at exactly
`now = 60` (so `delta = now - burstTime = stableWindow`) STAYS in burst
mode with its state intact, contradicting the claim that it exits as soon
as `delta ≥ stableWindow`. -/
theorem burst_exit_at_boundary_counterexample :
    let cfg : AutoscalerConfig :=
      { maxScaleUpRate := 2, maxScaleDownRate := 2, targetValue := 100,
        totalTargetValue := 0, burstThreshold := 2, stableWindow := 60,
        scaleDownDelay := 0, minScale := 0, maxScale := 0, activationScale := 1 }
    let a : SlidingWindowAutoscaler :=
      { config := cfg, burstTime := some 0, maxBurstPods := 5, maxTimeWindow := none }
    let snap : MetricSnapshot :=
      { stableValue := 0, burstValue := 0, readyPodCount := 1 }
    (a.scale snap 60).1.inBurstMode = true ∧
    (a.scale snap 60).2.burstTime = some 0 ∧
    (a.scale snap 60).2.maxBurstPods = 5 := by
  with_unfolding_all decide

/-- C6 (amended theorem): after `Update(config)`, the config is replaced;
if the new `scaleDownDelay` is positive the delay window is replaced by a
fresh window spanning exactly the new `scaleDownDelay`; if the new
`scaleDownDelay` is not positive the previous delay window is RETAINED
unchanged (it is not dropped), so a previously configured window keeps
applying the scale-down-delay maximum. -/
theorem update_delay_window_behavior (a : SlidingWindowAutoscaler)
    (cfg : AutoscalerConfig) :
    ((a.update cfg).config = cfg) ∧
    (0 < cfg.scaleDownDelay →
        (a.update cfg).maxTimeWindow =
          some (newTimeWindow cfg.scaleDownDelay scaleDownDelayGranularity) ∧
        (newTimeWindow cfg.scaleDownDelay scaleDownDelayGranularity).window.window =
          cfg.scaleDownDelay.toNat ∧
        (newTimeWindow cfg.scaleDownDelay scaleDownDelayGranularity).window.lastWrite =
          none) ∧
    (¬ 0 < cfg.scaleDownDelay →
        (a.update cfg).maxTimeWindow = a.maxTimeWindow) := by
  unfold SlidingWindowAutoscaler.update
  refine ⟨rfl, fun h => ⟨?_, rfl, rfl⟩, fun h => ?_⟩
  · simp only [if_pos h]
  · simp only [if_neg h]

/-- C6 (counterexample): updating a scaler that has a delay window with a
config whose `scaleDownDelay` is 0 does NOT drop the window: the old
window (a 30s/2s window holding the value 100 recorded at time 0)
survives, and the next `Scale` call still applies the scale-down-delay
maximum and returns 100, whereas with the window dropped it would
return 1. -/
theorem update_zero_delay_keeps_window_counterexample :
    let cfgOld : AutoscalerConfig :=
      { maxScaleUpRate := 2, maxScaleDownRate := 2, targetValue := 100,
        totalTargetValue := 0, burstThreshold := 2, stableWindow := 60,
        scaleDownDelay := 30, minScale := 0, maxScale := 0, activationScale := 1 }
    let w0 : TimeWindow := (newTimeWindow 30 scaleDownDelayGranularity).record 0 100
    let a : SlidingWindowAutoscaler :=
      { config := cfgOld, burstTime := none, maxBurstPods := 0, maxTimeWindow := some w0 }
    let a1 := a.update { cfgOld with scaleDownDelay := 0 }
    let snap : MetricSnapshot :=
      { stableValue := 100, burstValue := 0, readyPodCount := 1 }
    a1.maxTimeWindow.isSome = true ∧
    (a1.scale snap 2).1.desiredPodCount = 100 ∧
    (SlidingWindowAutoscaler.scale { a1 with maxTimeWindow := none }
        snap 2).1.desiredPodCount = 1 := by
  with_unfolding_all decide

/-- C10 (amended theorem): with a per-pod target (`targetValue > 0`) the
burst-vocabulary and panic-vocabulary `Scale` implementations agree on
every state, snapshot and time (up to the burst/panic renaming); they
differ in total-target mode, where only the burst-vocabulary file
multiplies the observed value by the ready pod count. -/
theorem burst_panic_variants_agree_per_pod (a : SlidingWindowAutoscaler)
    (snap : MetricSnapshot) (now : ℤ) (h : 0 < a.config.targetValue) :
    a.scale snap now = a.scalePanic snap now := by
  have hr : ∀ r v, rawPodCount a.config r v = rawPodCountPanic a.config v := by
    intro r v
    unfold rawPodCount rawPodCountPanic
    rw [if_pos h, if_pos h]
  unfold SlidingWindowAutoscaler.scale SlidingWindowAutoscaler.scalePanic
  simp only [hr]

/-- C10 (counterexample): in total-target mode
(`targetValue = 0`, `totalTargetValue = 1000`) with 2 ready pods and an
observed value of 2500, the burst-vocabulary file computes
`raw = ceil(2 * 2500 / 1000) = 5` while the panic-vocabulary file computes
`raw = ceil(2500 / 1000) = 3`, and the two `Scale` implementations return
different recommendations. -/
theorem burst_panic_variants_differ_counterexample :
    let cfg : AutoscalerConfig :=
      { maxScaleUpRate := 2, maxScaleDownRate := 2, targetValue := 0,
        totalTargetValue := 1000, burstThreshold := 2, stableWindow := 60,
        scaleDownDelay := 0, minScale := 0, maxScale := 0, activationScale := 1 }
    let a : SlidingWindowAutoscaler :=
      { config := cfg, burstTime := none, maxBurstPods := 0, maxTimeWindow := none }
    let snap : MetricSnapshot :=
      { stableValue := 2500, burstValue := 2500, readyPodCount := 2 }
    rawPodCount cfg 2 2500 = 5 ∧ rawPodCountPanic cfg 2500 = 3 ∧
    (a.scale snap 0).1 ≠ (a.scalePanic snap 0).1 := by
  with_unfolding_all decide

/-- C9 (counterexample): constructing the scaler is NOT independent of the
wall clock: `NewSlidingWindowAutoscaler` reads `time.Now()` to pre-arm
burst mode (line 72 of `algorithm/sliding_window.go`), so two runs that
construct at wall times 0 and 100 and then feed the identical snapshot at
`now = 70` produce different recommendations. -/
theorem construction_reads_wall_clock_counterexample :
    let cfg : AutoscalerConfig :=
      { maxScaleUpRate := 2, maxScaleDownRate := 2, targetValue := 100,
        totalTargetValue := 0, burstThreshold := 2, stableWindow := 60,
        scaleDownDelay := 0, minScale := 0, maxScale := 0, activationScale := 1 }
    let snap : MetricSnapshot :=
      { stableValue := 0, burstValue := 0, readyPodCount := 1 }
    runScale (newSlidingWindowAutoscaler cfg 0) [(snap, 70)] ≠
      runScale (newSlidingWindowAutoscaler cfg 100) [(snap, 70)] := by
  with_unfolding_all decide

theorem applyActivation_of_le_one (cfg : AutoscalerConfig) (raw d : ℤ)
    (h : cfg.activationScale ≤ 1) : applyActivation cfg raw d = d := by
  unfold applyActivation
  rw [if_neg]
  rintro ⟨h1, -, -⟩
  omega

theorem maxScaleDown_nonneg (cfg : AutoscalerConfig) (r : ℤ) (hr : 0 ≤ r)
    (h : 0 < cfg.maxScaleDownRate) : 0 ≤ maxScaleDown cfg r := by
  unfold maxScaleDown
  have : (0 : ℚ) ≤ (r : ℚ) / cfg.maxScaleDownRate :=
    div_nonneg (by exact_mod_cast hr) h.le
  exact Int.floor_nonneg.mpr this

theorem limited_bounds (raw down up : ℤ) (h : down ≤ up) :
    down ≤ limited raw down up ∧ limited raw down up ≤ up := by
  unfold limited
  omega

theorem applyBounds_spec (cfg : AutoscalerConfig) (d lo hi : ℤ)
    (hlo : 0 ≤ lo) (hd1 : lo ≤ d) (hd2 : d ≤ hi) (hminhi : cfg.minScale ≤ hi)
    (hmax : 0 < cfg.maxScale → lo ≤ cfg.maxScale ∧ cfg.minScale ≤ cfg.maxScale) :
    lo ≤ applyBounds cfg d ∧ applyBounds cfg d ≤ hi ∧
    cfg.minScale ≤ applyBounds cfg d ∧
    (0 < cfg.maxScale → applyBounds cfg d ≤ cfg.maxScale) := by
  unfold applyBounds
  dsimp only
  split_ifs <;> omega

/-- C1 (amended theorem): when the activation floor cannot fire
(`activationScale ≤ 1`), no scale-down-delay window is configured, the
burst high-water mark does not exceed this call's `maxScaleUp`, and the
configured bounds are consistent with the rate limits
(`minScale ≤ maxScaleUp`; when `maxScale > 0` also `maxScaleDown ≤ maxScale`
and `minScale ≤ maxScale`), every valid recommendation's `desiredPodCount`
lies in `[maxScaleDown, maxScaleUp]` intersected with
`[minScale, maxScale]` (the `maxScale` bound applying only when positive). -/
theorem scale_rate_limits_amended (a : SlidingWindowAutoscaler)
    (snap : MetricSnapshot) (now : ℤ)
    (hready : 0 ≤ snap.readyPodCount)
    (hs : 0 ≤ snap.stableValue) (hb : 0 ≤ snap.burstValue)
    (hup : 1 ≤ a.config.maxScaleUpRate) (hdown : 1 ≤ a.config.maxScaleDownRate)
    (hact : a.config.activationScale ≤ 1)
    (hwin : a.maxTimeWindow = none)
    (hmb : a.maxBurstPods ≤ maxScaleUp a.config (effectiveReadyPods snap))
    (hminle : a.config.minScale ≤ maxScaleUp a.config (effectiveReadyPods snap))
    (hmaxok : 0 < a.config.maxScale →
        maxScaleDown a.config (effectiveReadyPods snap) ≤ a.config.maxScale ∧
        a.config.minScale ≤ a.config.maxScale) :
    (a.scale snap now).1.scaleValid = true ∧
    maxScaleDown a.config (effectiveReadyPods snap) ≤
      (a.scale snap now).1.desiredPodCount ∧
    (a.scale snap now).1.desiredPodCount ≤
      maxScaleUp a.config (effectiveReadyPods snap) ∧
    a.config.minScale ≤ (a.scale snap now).1.desiredPodCount ∧
    (0 < a.config.maxScale →
      (a.scale snap now).1.desiredPodCount ≤ a.config.maxScale) := by
  have hrpos : 0 < effectiveReadyPods snap := effectiveReadyPods_pos snap hready
  have hvalid : ¬(snap.stableValue < 0 ∨ snap.burstValue < 0) := by
    push_neg
    exact ⟨hs, hb⟩
  have hdnup : maxScaleDown a.config (effectiveReadyPods snap) ≤
      maxScaleUp a.config (effectiveReadyPods snap) :=
    le_trans (maxScaleDown_le_ready a.config _ hrpos.le hdown)
      (ready_le_maxScaleUp a.config _ hrpos.le hup)
  have hdn0 : 0 ≤ maxScaleDown a.config (effectiveReadyPods snap) :=
    maxScaleDown_nonneg a.config _ hrpos.le (lt_of_lt_of_le one_pos hdown)
  have hl1 := limited_bounds (rawPodCount a.config (effectiveReadyPods snap) snap.stableValue)
    (maxScaleDown a.config (effectiveReadyPods snap))
    (maxScaleUp a.config (effectiveReadyPods snap)) hdnup
  have hl2 := limited_bounds (rawPodCount a.config (effectiveReadyPods snap) snap.burstValue)
    (maxScaleDown a.config (effectiveReadyPods snap))
    (maxScaleUp a.config (effectiveReadyPods snap)) hdnup
  unfold SlidingWindowAutoscaler.scale
  rw [if_neg hvalid]
  simp only [hwin, applyActivation_of_le_one _ _ _ hact]
  refine ⟨trivial, ?_⟩
  have hafter :
      maxScaleDown a.config (effectiveReadyPods snap) ≤
        (if (burstSwitch a.config a.burstTime a.maxBurstPods
              (isOverBurstThreshold a.config
                (rawPodCount a.config (effectiveReadyPods snap) snap.burstValue)
                (effectiveReadyPods snap)) now).2.2 = true then
          (burstSwitch a.config a.burstTime a.maxBurstPods
              (isOverBurstThreshold a.config
                (rawPodCount a.config (effectiveReadyPods snap) snap.burstValue)
                (effectiveReadyPods snap)) now).2.1 ⊔
            (limited (rawPodCount a.config (effectiveReadyPods snap) snap.stableValue)
                (maxScaleDown a.config (effectiveReadyPods snap))
                (maxScaleUp a.config (effectiveReadyPods snap)) ⊔
              limited (rawPodCount a.config (effectiveReadyPods snap) snap.burstValue)
                (maxScaleDown a.config (effectiveReadyPods snap))
                (maxScaleUp a.config (effectiveReadyPods snap)))
        else
          limited (rawPodCount a.config (effectiveReadyPods snap) snap.stableValue)
            (maxScaleDown a.config (effectiveReadyPods snap))
            (maxScaleUp a.config (effectiveReadyPods snap))) ∧
      (if (burstSwitch a.config a.burstTime a.maxBurstPods
              (isOverBurstThreshold a.config
                (rawPodCount a.config (effectiveReadyPods snap) snap.burstValue)
                (effectiveReadyPods snap)) now).2.2 = true then
          (burstSwitch a.config a.burstTime a.maxBurstPods
              (isOverBurstThreshold a.config
                (rawPodCount a.config (effectiveReadyPods snap) snap.burstValue)
                (effectiveReadyPods snap)) now).2.1 ⊔
            (limited (rawPodCount a.config (effectiveReadyPods snap) snap.stableValue)
                (maxScaleDown a.config (effectiveReadyPods snap))
                (maxScaleUp a.config (effectiveReadyPods snap)) ⊔
              limited (rawPodCount a.config (effectiveReadyPods snap) snap.burstValue)
                (maxScaleDown a.config (effectiveReadyPods snap))
                (maxScaleUp a.config (effectiveReadyPods snap)))
        else
          limited (rawPodCount a.config (effectiveReadyPods snap) snap.stableValue)
            (maxScaleDown a.config (effectiveReadyPods snap))
            (maxScaleUp a.config (effectiveReadyPods snap))) ≤
        maxScaleUp a.config (effectiveReadyPods snap) := by
    by_cases hbm : (burstSwitch a.config a.burstTime a.maxBurstPods
        (isOverBurstThreshold a.config
          (rawPodCount a.config (effectiveReadyPods snap) snap.burstValue)
          (effectiveReadyPods snap)) now).2.2 = true
    · rw [if_pos hbm]
      have hhw := burstSwitch_high_water a.config a.burstTime a.maxBurstPods
        (isOverBurstThreshold a.config
          (rawPodCount a.config (effectiveReadyPods snap) snap.burstValue)
          (effectiveReadyPods snap)) now hbm
      rw [hhw]
      omega
    · rw [if_neg hbm]
      exact ⟨hl1.1, hl1.2⟩
  exact applyBounds_spec a.config _ _ _ hdn0 hafter.1 hafter.2 hminle hmaxok

/-- C1 (counterexample): with `maxScaleUpRate = 2`, one ready pod (so
`maxScaleUp = 2`) and `activationScale = 10`, a snapshot with raw stable
demand 1 yields a valid recommendation of 10 pods, outside the claimed
interval `[maxScaleDown, maxScaleUp] = [0, 2]` (and no `minScale`/`maxScale`
bound narrows it back: both are 0). -/
theorem scale_rate_limits_counterexample :
    let cfg : AutoscalerConfig :=
      { maxScaleUpRate := 2, maxScaleDownRate := 2, targetValue := 1,
        totalTargetValue := 0, burstThreshold := 2, stableWindow := 60,
        scaleDownDelay := 0, minScale := 0, maxScale := 0, activationScale := 10 }
    let a : SlidingWindowAutoscaler :=
      { config := cfg, burstTime := none, maxBurstPods := 0, maxTimeWindow := none }
    let snap : MetricSnapshot :=
      { stableValue := 1, burstValue := 0, readyPodCount := 1 }
    (a.scale snap 0).1.scaleValid = true ∧
    (a.scale snap 0).1.desiredPodCount = 10 ∧
    maxScaleUp cfg (effectiveReadyPods snap) = 2 ∧
    ¬((a.scale snap 0).1.desiredPodCount ≤ maxScaleUp cfg (effectiveReadyPods snap)) := by
  with_unfolding_all decide

theorem scale_preserves_config_and_no_window (a : SlidingWindowAutoscaler)
    (snap : MetricSnapshot) (now : ℤ) (hwin : a.maxTimeWindow = none) :
    (a.scale snap now).2.maxTimeWindow = none ∧
    (a.scale snap now).2.config = a.config := by
  unfold SlidingWindowAutoscaler.scale
  by_cases hv : snap.stableValue < 0 ∨ snap.burstValue < 0
  · rw [if_pos hv]
    exact ⟨hwin, rfl⟩
  · rw [if_neg hv]
    simp only [hwin]
    exact ⟨by trivial, by trivial⟩

theorem scale_in_burst_desired (a : SlidingWindowAutoscaler)
    (snap : MetricSnapshot) (now : ℤ) (hwin : a.maxTimeWindow = none)
    (hbm : (a.scale snap now).1.inBurstMode = true) :
    (a.scale snap now).1.desiredPodCount =
      applyBounds a.config ((a.scale snap now).2.maxBurstPods) ∧
    a.maxBurstPods ≤ (a.scale snap now).2.maxBurstPods := by
  by_cases hv : snap.stableValue < 0 ∨ snap.burstValue < 0
  · exfalso
    unfold SlidingWindowAutoscaler.scale at hbm
    rw [if_pos hv] at hbm
    simp at hbm
  · unfold SlidingWindowAutoscaler.scale at hbm ⊢
    rw [if_neg hv] at hbm ⊢
    simp only [hwin] at hbm ⊢
    rw [if_pos hbm, if_pos hbm]
    refine ⟨rfl, ?_⟩
    have hhw := burstSwitch_high_water a.config a.burstTime a.maxBurstPods
      (isOverBurstThreshold a.config
        (rawPodCount a.config (effectiveReadyPods snap) snap.burstValue)
        (effectiveReadyPods snap)) now hbm
    rw [hhw]
    omega

/-- C4 (amended theorem): for two consecutive `Scale` calls on a scaler
WITHOUT a scale-down-delay window, if both recommendations are valid and in
burst mode then the desired pod count does not decrease.  (With a delay
window configured the claim fails: an older, larger recorded value can be
cleared from the window's bucket ring between the two calls.) -/
theorem no_scale_down_in_burst_amended (a : SlidingWindowAutoscaler)
    (s1 s2 : MetricSnapshot) (t1 t2 : ℤ)
    (hwin : a.maxTimeWindow = none)
    (hv1 : (a.scale s1 t1).1.scaleValid = true)
    (hv2 : ((a.scale s1 t1).2.scale s2 t2).1.scaleValid = true)
    (hb1 : (a.scale s1 t1).1.inBurstMode = true)
    (hb2 : ((a.scale s1 t1).2.scale s2 t2).1.inBurstMode = true) :
    (a.scale s1 t1).1.desiredPodCount ≤
      ((a.scale s1 t1).2.scale s2 t2).1.desiredPodCount := by
  obtain ⟨e1, hm1⟩ := scale_in_burst_desired a s1 t1 hwin hb1
  obtain ⟨hw2, hc2⟩ := scale_preserves_config_and_no_window a s1 t1 hwin
  obtain ⟨e2, hm2⟩ := scale_in_burst_desired (a.scale s1 t1).2 s2 t2 hw2 hb2
  rw [e1, e2, hc2]
  exact applyBounds_mono a.config hm2

/-- C4 (counterexample): with a scale-down-delay window configured
(`window = 4s`, granularity 2s) holding an older value 100 recorded at
time 0, two consecutive in-burst valid calls at times 2 and 6 return
desired counts 100 and then 5: the second call's `Record` at time 6 is a
jump of a full window past `lastWrite = 2`, so the bucket ring is reset
and the old 100 is gone, so the desired pod count DECREASES while burst
mode persists. -/
theorem no_scale_down_in_burst_counterexample :
    let cfg : AutoscalerConfig :=
      { maxScaleUpRate := 1000, maxScaleDownRate := 2, targetValue := 100,
        totalTargetValue := 0, burstThreshold := 2, stableWindow := 1000,
        scaleDownDelay := 4, minScale := 0, maxScale := 0, activationScale := 1 }
    let a : SlidingWindowAutoscaler :=
      { config := cfg, burstTime := some 0, maxBurstPods := 5,
        maxTimeWindow := some ((newTimeWindow 4 scaleDownDelayGranularity).record 0 100) }
    let snap : MetricSnapshot :=
      { stableValue := 500, burstValue := 500, readyPodCount := 5 }
    let r1 := a.scale snap 2
    let r2 := r1.2.scale snap 6
    r1.1.scaleValid = true ∧ r2.1.scaleValid = true ∧
    r1.1.inBurstMode = true ∧ r2.1.inBurstMode = true ∧
    r1.1.desiredPodCount = 100 ∧ r2.1.desiredPodCount = 5 ∧
    ¬(r1.1.desiredPodCount ≤ r2.1.desiredPodCount) := by
  with_unfolding_all decide

theorem managerFold_const_of_ub (acc : ℤ) (recs : List ScaleRecommendation)
    (hub : ∀ r ∈ recs, r.scaleValid = true → r.desiredPodCount ≤ acc) :
    recs.foldl
      (fun acc r => if r.scaleValid ∧ acc < r.desiredPodCount then r.desiredPodCount else acc)
      acc = acc := by
  induction recs with
  | nil => rfl
  | cons r rest ih =>
    have hr := hub r (List.mem_cons_self r rest)
    have hstep : (if r.scaleValid ∧ acc < r.desiredPodCount then r.desiredPodCount else acc) = acc := by
      by_cases hvr : r.scaleValid = true
      · rw [if_neg]
        rintro ⟨-, hlt⟩
        have := hr hvr
        omega
      · rw [if_neg]
        rintro ⟨hvr2, -⟩
        exact hvr hvr2
    simp only [List.foldl_cons, hstep]
    exact ih (fun r hm hv => hub r (List.mem_cons_of_mem _ hm) hv)

theorem managerFold_eq_max (recs : List ScaleRecommendation) :
    ∀ M acc : ℤ,
      (∃ r ∈ recs, r.scaleValid = true ∧ r.desiredPodCount = M) →
      (∀ r ∈ recs, r.scaleValid = true → r.desiredPodCount ≤ M) →
      acc ≤ M →
      recs.foldl
        (fun acc r => if r.scaleValid ∧ acc < r.desiredPodCount then r.desiredPodCount else acc)
        acc = M := by
  induction recs with
  | nil =>
    intro M acc hex hub hacc
    obtain ⟨r, hm, -⟩ := hex
    exact absurd hm (List.not_mem_nil r)
  | cons r rest ih =>
    intro M acc hex hub hacc
    simp only [List.foldl_cons]
    obtain ⟨r0, hm0, hv0, hd0⟩ := hex
    rcases List.mem_cons.mp hm0 with h0 | h0
    · subst h0
      have hstep : (if r0.scaleValid ∧ acc < r0.desiredPodCount then r0.desiredPodCount else acc) = M := by
        by_cases hlt : acc < M
        · rw [if_pos ⟨hv0, by omega⟩]
          exact hd0
        · rw [if_neg (by rintro ⟨-, hl⟩; omega)]
          omega
      rw [hstep]
      exact managerFold_const_of_ub M rest
        (fun s hm hv => hub s (List.mem_cons_of_mem _ hm) hv)
    · by_cases hstep : r.scaleValid ∧ acc < r.desiredPodCount
      · rw [if_pos hstep]
        exact ih M r.desiredPodCount ⟨r0, h0, hv0, hd0⟩
          (fun s hm hv => hub s (List.mem_cons_of_mem _ hm) hv)
          (hub r (List.mem_cons_self r rest) hstep.1)
      · rw [if_neg hstep]
        exact ih M acc ⟨r0, h0, hv0, hd0⟩
          (fun s hm hv => hub s (List.mem_cons_of_mem _ hm) hv) hacc

/-- C2 (confirmed): `Manager.Scale` returns `minReplicas` when no scalers
are registered; returns `readyPods` unchanged when scalers are registered
but every recommendation is invalid; otherwise returns the maximum
`desiredPodCount` over the valid recommendations, raised to `minReplicas`
if below it and, when `maxReplicas > 0`, capped at `maxReplicas`.  Stated
over the list of recommendations collected from the registered scalers;
hypothesis `hnn` records that the algorithm only emits non-negative
desired counts. -/
theorem manager_scale_spec (minReplicas maxReplicas readyPods : ℤ)
    (recs : List ScaleRecommendation)
    (hnn : ∀ r ∈ recs, r.scaleValid = true → 0 ≤ r.desiredPodCount) :
    (recs = [] → managerScale minReplicas maxReplicas recs readyPods = minReplicas) ∧
    (recs ≠ [] → (∀ r ∈ recs, r.scaleValid = false) →
        managerScale minReplicas maxReplicas recs readyPods = readyPods) ∧
    (∀ M : ℤ,
        (∃ r ∈ recs, r.scaleValid = true ∧ r.desiredPodCount = M) →
        (∀ r ∈ recs, r.scaleValid = true → r.desiredPodCount ≤ M) →
        managerScale minReplicas maxReplicas recs readyPods =
          (if 0 < maxReplicas ∧
              maxReplicas < (if M < minReplicas then minReplicas else M) then
            maxReplicas
          else if M < minReplicas then minReplicas else M)) := by
  refine ⟨?_, ?_, ?_⟩
  · rintro rfl
    rfl
  · intro hne hall
    unfold managerScale
    have hie : recs.isEmpty = false := by
      cases recs with
      | nil => exact absurd rfl hne
      | cons r rest => rfl
    rw [if_neg (by simp [hie])]
    have hflt : (recs.filter (fun r => r.scaleValid)).length = 0 := by
      rw [List.length_eq_zero, List.filter_eq_nil]
      intro r hm
      rw [hall r hm]
      simp
    simp [hflt]
  · intro M hex hub
    have hM0 : 0 ≤ M := by
      obtain ⟨r, hm, hv, hd⟩ := hex
      have := hnn r hm hv
      omega
    unfold managerScale
    have hie : recs.isEmpty = false := by
      cases recs with
      | nil =>
        obtain ⟨r, hm, -⟩ := hex
        exact absurd hm (List.not_mem_nil r)
      | cons r rest => rfl
    rw [if_neg (by simp [hie])]
    rw [managerFold_eq_max recs M 0 hex hub hM0]
    have hfltpos : ¬((recs.filter (fun r => r.scaleValid)).length = 0) := by
      obtain ⟨r, hm, hv, -⟩ := hex
      have hmem : r ∈ recs.filter (fun r => r.scaleValid) :=
        List.mem_filter.mpr ⟨hm, hv⟩
      have := List.length_pos.mpr (List.ne_nil_of_mem hmem)
      omega
    rw [if_neg hfltpos]

/-- C2 witness: three scalers with recommendations 5 (valid), 3 (valid)
and an invalid one, bounds `[1, 10]`, 7 ready pods: the manager returns 5. -/
theorem manager_scale_spec_witness :
    managerScale 1 10
      [{ desiredPodCount := 5, scaleValid := true, inBurstMode := false },
       { desiredPodCount := 3, scaleValid := true, inBurstMode := true },
       { desiredPodCount := 0, scaleValid := false, inBurstMode := false }] 7 = 5 := by
  have h := (manager_scale_spec 1 10 7
    [{ desiredPodCount := 5, scaleValid := true, inBurstMode := false },
     { desiredPodCount := 3, scaleValid := true, inBurstMode := true },
     { desiredPodCount := 0, scaleValid := false, inBurstMode := false }]
    (by decide)).2.2 5 (by decide) (by decide)
  simpa using h

/-- C1 witness: steady state (spec scenario 1): 300 observed across 3
ready pods with target 100, bounds `[1, 10]`; the amended rate-limit
theorem applies and brackets the returned desired count. -/
theorem scale_rate_limits_witness :
    let cfg : AutoscalerConfig :=
      { maxScaleUpRate := 10, maxScaleDownRate := 2, targetValue := 100,
        totalTargetValue := 0, burstThreshold := 2, stableWindow := 60,
        scaleDownDelay := 0, minScale := 1, maxScale := 10, activationScale := 1 }
    let a : SlidingWindowAutoscaler :=
      { config := cfg, burstTime := none, maxBurstPods := 0, maxTimeWindow := none }
    let snap : MetricSnapshot :=
      { stableValue := 300, burstValue := 300, readyPodCount := 3 }
    (a.scale snap 60).1.scaleValid = true ∧
    maxScaleDown cfg (effectiveReadyPods snap) ≤ (a.scale snap 60).1.desiredPodCount ∧
    (a.scale snap 60).1.desiredPodCount ≤ maxScaleUp cfg (effectiveReadyPods snap) ∧
    cfg.minScale ≤ (a.scale snap 60).1.desiredPodCount ∧
    (0 < cfg.maxScale → (a.scale snap 60).1.desiredPodCount ≤ cfg.maxScale) :=
  scale_rate_limits_amended _ _ 60 (by decide) (by decide) (by decide)
    (by decide) (by decide) (by decide) rfl
    (by with_unfolding_all decide) (by with_unfolding_all decide)
    (by with_unfolding_all decide)

/-- C3 witness: a scaler in burst mode since time 0 with a 60s stable
window, seeing an under-threshold snapshot: at `now = 61` (delta 61 > 60)
the amended theorem yields the exit, at `now = 60` (delta 60 ≤ 60) it
yields staying in burst mode. -/
theorem burst_exit_witness :
    let cfg : AutoscalerConfig :=
      { maxScaleUpRate := 2, maxScaleDownRate := 2, targetValue := 100,
        totalTargetValue := 0, burstThreshold := 2, stableWindow := 60,
        scaleDownDelay := 0, minScale := 0, maxScale := 0, activationScale := 1 }
    let a : SlidingWindowAutoscaler :=
      { config := cfg, burstTime := some 0, maxBurstPods := 5, maxTimeWindow := none }
    let snap : MetricSnapshot :=
      { stableValue := 0, burstValue := 0, readyPodCount := 1 }
    ((a.scale snap 61).1.inBurstMode = false ∧
      (a.scale snap 61).2.burstTime = none ∧
      (a.scale snap 61).2.maxBurstPods = 0) ∧
    ((a.scale snap 60).1.inBurstMode = true ∧
      (a.scale snap 60).2.burstTime = some 0) :=
  ⟨(burst_exit_strictly_after_stable_window _ _ 61 0 rfl (by decide) (by decide)
      (by with_unfolding_all decide)).1 (by decide),
   (burst_exit_strictly_after_stable_window _ _ 60 0 rfl (by decide) (by decide)
      (by with_unfolding_all decide)).2 (by decide)⟩

/-- C4 witness: two consecutive in-burst valid calls on a scaler without a
delay window (entering burst on a spike, then holding): the amended
theorem gives monotonicity of the desired counts. -/
theorem no_scale_down_in_burst_witness :
    let cfg : AutoscalerConfig :=
      { maxScaleUpRate := 10, maxScaleDownRate := 2, targetValue := 100,
        totalTargetValue := 0, burstThreshold := 2, stableWindow := 60,
        scaleDownDelay := 0, minScale := 1, maxScale := 20, activationScale := 1 }
    let a : SlidingWindowAutoscaler :=
      { config := cfg, burstTime := none, maxBurstPods := 0, maxTimeWindow := none }
    let s1 : MetricSnapshot :=
      { stableValue := 100, burstValue := 500, readyPodCount := 2 }
    let s2 : MetricSnapshot :=
      { stableValue := 100, burstValue := 100, readyPodCount := 5 }
    (a.scale s1 0).1.desiredPodCount ≤
      ((a.scale s1 0).2.scale s2 30).1.desiredPodCount :=
  no_scale_down_in_burst_amended _ _ _ 0 30 rfl
    (by with_unfolding_all decide) (by with_unfolding_all decide)
    (by with_unfolding_all decide) (by with_unfolding_all decide)

/-- C5 witness: with `activationScale = 3`, a raw demand of 1 below the
floor is raised to 3; and on an all-zero snapshot the recommendation is
unchanged when `activationScale` is replaced by 1 (scale-to-zero). -/
theorem activation_floor_witness :
    let cfg : AutoscalerConfig :=
      { maxScaleUpRate := 2, maxScaleDownRate := 2, targetValue := 100,
        totalTargetValue := 0, burstThreshold := 2, stableWindow := 60,
        scaleDownDelay := 0, minScale := 0, maxScale := 0, activationScale := 3 }
    let a : SlidingWindowAutoscaler :=
      { config := cfg, burstTime := none, maxBurstPods := 0, maxTimeWindow := none }
    let snap : MetricSnapshot :=
      { stableValue := 0, burstValue := 0, readyPodCount := 1 }
    applyActivation cfg 1 1 = 3 ∧
    (a.scale snap 0).1 =
      (SlidingWindowAutoscaler.scale
        { a with config := { cfg with activationScale := 1 } } snap 0).1 :=
  ⟨(activation_floor_only_with_demand
      ⟨⟨2, 2, 100, 0, 2, 60, 0, 0, 0, 3⟩, none, 0, none⟩ ⟨0, 0, 1⟩ 0).1 1 1
      (by decide) (by decide) (by decide),
   (activation_floor_only_with_demand
      ⟨⟨2, 2, 100, 0, 2, 60, 0, 0, 0, 3⟩, none, 0, none⟩ ⟨0, 0, 1⟩ 0).2
      (by with_unfolding_all decide) (by with_unfolding_all decide)⟩

/-- C6 witness: updating with `scaleDownDelay = 30` installs a fresh delay
window spanning 30 seconds; updating with `scaleDownDelay = 0` leaves the
previous window in place. -/
theorem update_delay_window_witness :
    let cfg : AutoscalerConfig :=
      { maxScaleUpRate := 2, maxScaleDownRate := 2, targetValue := 100,
        totalTargetValue := 0, burstThreshold := 2, stableWindow := 60,
        scaleDownDelay := 30, minScale := 0, maxScale := 0, activationScale := 1 }
    let a : SlidingWindowAutoscaler :=
      { config := cfg, burstTime := none, maxBurstPods := 0,
        maxTimeWindow := some ((newTimeWindow 30 scaleDownDelayGranularity).record 0 7) }
    ((a.update cfg).maxTimeWindow =
        some (newTimeWindow 30 scaleDownDelayGranularity) ∧
      (newTimeWindow 30 scaleDownDelayGranularity).window.window = (30 : ℤ).toNat ∧
      (newTimeWindow 30 scaleDownDelayGranularity).window.lastWrite = none) ∧
    (a.update { cfg with scaleDownDelay := 0 }).maxTimeWindow = a.maxTimeWindow :=
  ⟨(update_delay_window_behavior
      ⟨⟨2, 2, 100, 0, 2, 60, 30, 0, 0, 1⟩, none, 0,
        some ((newTimeWindow 30 scaleDownDelayGranularity).record 0 7)⟩
      ⟨2, 2, 100, 0, 2, 60, 30, 0, 0, 1⟩).2.1 (by decide),
   (update_delay_window_behavior
      ⟨⟨2, 2, 100, 0, 2, 60, 30, 0, 0, 1⟩, none, 0,
        some ((newTimeWindow 30 scaleDownDelayGranularity).record 0 7)⟩
      ⟨2, 2, 100, 0, 2, 60, 0, 0, 0, 1⟩).2.2 (by decide)⟩

/-- C10 witness: in per-pod-target mode the two algorithm variants agree,
here on a 2-ready-pod snapshot with target 100. -/
theorem burst_panic_variants_witness :
    let cfg : AutoscalerConfig :=
      { maxScaleUpRate := 10, maxScaleDownRate := 2, targetValue := 100,
        totalTargetValue := 0, burstThreshold := 2, stableWindow := 60,
        scaleDownDelay := 0, minScale := 0, maxScale := 0, activationScale := 1 }
    let a : SlidingWindowAutoscaler :=
      { config := cfg, burstTime := none, maxBurstPods := 0, maxTimeWindow := none }
    let snap : MetricSnapshot :=
      { stableValue := 500, burstValue := 700, readyPodCount := 2 }
    a.scale snap 0 = a.scalePanic snap 0 :=
  burst_panic_variants_agree_per_pod _ _ 0 (by decide)


/-- C7 (confirmed): a `Record` whose bucket is older than
`lastWrite - window` changes nothing: the state is returned unchanged, so
every subsequent `WindowAverage` and `IsEmpty` result is the same as if
the `Record` had not happened. -/
theorem record_out_of_window_is_dropped (t : TimedFloat64Buckets) (tm : Nat)
    (v : ℚ) (lw : Nat) (hlw : t.lastWrite = some lw)
    (hdrop : tm / t.granularity * t.granularity + t.window < lw) :
    t.record tm v = t ∧
    (∀ now, (t.record tm v).windowAverage now = t.windowAverage now) ∧
    (∀ now, (t.record tm v).isEmptyLocked now = t.isEmptyLocked now) := by
  have heq : t.record tm v = t := by
    unfold TimedFloat64Buckets.record
    simp only [hlw]
    have hne : ¬(lw = tm / t.granularity * t.granularity) := by omega
    rw [if_neg hne, if_pos hdrop]
  exact ⟨heq, fun now => by rw [heq], fun now => by rw [heq]⟩

/-- C7 witness: a window of 10 one-second buckets last written at t = 30;
recording at t = 5 (bucket 5, older than 30 - 10) is dropped. -/
theorem record_out_of_window_witness :
    ((NewTimedFloat64Buckets 10 1).record 30 5).record 5 99 =
      (NewTimedFloat64Buckets 10 1).record 30 5 :=
  (record_out_of_window_is_dropped ((NewTimedFloat64Buckets 10 1).record 30 5)
    5 99 30 (by with_unfolding_all decide) (by decide)).1

/-! ### Helper lemmas for the bucket-total invariant -/

theorem clearBuckets_fst (n : Nat) (L : List Nat) :
    ∀ (bk : Nat → ℚ) (tot : ℚ) (j : Nat),
      (clearBuckets bk tot n L).1 j = if ∃ i ∈ L, i % n = j then 0 else bk j := by
  induction L with
  | nil =>
    intro bk tot j
    simp [clearBuckets]
  | cons i rest ih =>
    intro bk tot j
    unfold clearBuckets
    rw [ih]
    by_cases h1 : ∃ x ∈ rest, x % n = j
    · rw [if_pos h1]
      obtain ⟨x, hm, he⟩ := h1
      rw [if_pos ⟨x, List.mem_cons_of_mem _ hm, he⟩]
    · rw [if_neg h1]
      by_cases h2 : i % n = j
      · rw [if_pos ⟨i, List.mem_cons_self i rest, h2⟩]
        subst h2
        exact Function.update_same _ _ _
      · rw [if_neg ?_]
        · exact Function.update_noteq (fun h => h2 h.symm) _ _
        · rintro ⟨x, hx, he⟩
          rcases List.mem_cons.mp hx with rfl | hx
          · exact h2 he
          · exact h1 ⟨x, hx, he⟩

theorem clearBuckets_snd (n : Nat) (hn : 0 < n) (L : List Nat) :
    ∀ (bk : Nat → ℚ) (tot : ℚ),
      tot = ∑ j ∈ Finset.range n, bk j →
      (clearBuckets bk tot n L).2 =
        ∑ j ∈ Finset.range n, (clearBuckets bk tot n L).1 j := by
  induction L with
  | nil =>
    intro bk tot h
    simpa [clearBuckets] using h
  | cons i rest ih =>
    intro bk tot h
    unfold clearBuckets
    apply ih
    have hmem : i % n ∈ Finset.range n := Finset.mem_range.mpr (Nat.mod_lt _ hn)
    rw [Finset.sum_update_of_mem hmem, zero_add, Finset.sdiff_singleton_eq_erase,
      Finset.sum_erase_eq_sub hmem, h]

theorem sum_update_add (n : Nat) (bk : Nat → ℚ) (p : Nat) (hp : p < n) (v : ℚ) :
    ∑ j ∈ Finset.range n, Function.update bk p (bk p + v) j =
      (∑ j ∈ Finset.range n, bk j) + v := by
  have hmem : p ∈ Finset.range n := Finset.mem_range.mpr hp
  rw [Finset.sum_update_of_mem hmem, Finset.sdiff_singleton_eq_erase,
    Finset.sum_erase_eq_sub hmem]
  ring

theorem nat_div_sub_of_dvd (g a b : Nat) (hg : 0 < g) (hga : g ∣ a) (hgb : g ∣ b) :
    (a - b) / g = a / g - b / g := by
  obtain ⟨x, rfl⟩ := hga
  obtain ⟨y, rfl⟩ := hgb
  rw [Nat.mul_div_cancel_left x hg, Nat.mul_div_cancel_left y hg, ← Nat.mul_sub,
    Nat.mul_div_cancel_left _ hg]

theorem nat_div_le_div_of_dvd (g a b : Nat) (hg : 0 < g) (h : a ≤ b) :
    a / g ≤ b / g := Nat.div_le_div_right h

theorem nat_div_lt_div_of_dvd (g a b : Nat) (hg : 0 < g) (hga : g ∣ a) (hgb : g ∣ b)
    (h : a < b) : a / g < b / g := by
  obtain ⟨x, rfl⟩ := hga
  obtain ⟨y, rfl⟩ := hgb
  rw [Nat.mul_div_cancel_left x hg, Nat.mul_div_cancel_left y hg]
  exact lt_of_mul_lt_mul_left h (Nat.zero_le g)

theorem window_le_numBuckets_mul (w g : Nat) (hg : 0 < g) :
    w ≤ (w + g - 1) / g * g := by
  have hd := Nat.div_add_mod (w + g - 1) g
  have hm : (w + g - 1) % g < g := Nat.mod_lt _ hg
  calc w = w + g - 1 - (g - 1) := by omega
    _ ≤ w + g - 1 - (w + g - 1) % g := by
        apply Nat.sub_le_sub_left
        omega
    _ = g * ((w + g - 1) / g) + (w + g - 1) % g - (w + g - 1) % g := by rw [hd]
    _ = g * ((w + g - 1) / g) := by omega
    _ = (w + g - 1) / g * g := Nat.mul_comm _ _

theorem mod_cancel_sub (n a k1 k2 : Nat) (hk1a : k1 ≤ a) (hk2a : k2 ≤ a)
    (hk1 : k1 < n) (hk2 : k2 < n) (h : (a - k1) % n = (a - k2) % n) : k1 = k2 := by
  rcases le_total k1 k2 with hle | hle
  · have hdvd : n ∣ (a - k1) - (a - k2) :=
      (Nat.modEq_iff_dvd' (by omega)).mp h.symm
    have heq : (a - k1) - (a - k2) = k2 - k1 := by omega
    rw [heq] at hdvd
    have := Nat.eq_zero_of_dvd_of_lt hdvd
    omega
  · have hdvd : n ∣ (a - k2) - (a - k1) :=
      (Nat.modEq_iff_dvd' (by omega)).mp h
    have heq : (a - k2) - (a - k1) = k1 - k2 := by omega
    rw [heq] at hdvd
    have := Nat.eq_zero_of_dvd_of_lt hdvd
    omega

/-- Geometry facts fixed at construction and preserved by `record`. -/
def GoodGeom (t : TimedFloat64Buckets) : Prop :=
  0 < t.granularity ∧ 0 < t.window ∧
  t.numBuckets = (t.window + t.granularity - 1) / t.granularity

/-- The invariant behind claim C8: the running total is the sum of all
ring buckets, and only the `filledBucketCount` most-recent ring positions
hold nonzero values. -/
def BucketInv (t : TimedFloat64Buckets) : Prop :=
  (∀ j, t.numBuckets ≤ j → t.buckets j = 0) ∧
  ((t.lastWrite = none ∧ t.firstWrite = none ∧ t.windowTotal = 0 ∧
      ∀ j, t.buckets j = 0) ∨
   (∃ lw fw, t.lastWrite = some lw ∧ t.firstWrite = some fw ∧
      fw ≤ lw ∧ t.granularity ∣ fw ∧ t.granularity ∣ lw ∧
      t.windowTotal = ∑ j ∈ Finset.range t.numBuckets, t.buckets j ∧
      (∀ j, j < t.numBuckets → t.buckets j ≠ 0 →
        ∃ k, k < t.filledBucketCount ∧
          (lw / t.granularity - k) % t.numBuckets = j)))

theorem GoodGeom.numBuckets_pos {t : TimedFloat64Buckets} (h : GoodGeom t) :
    0 < t.numBuckets := by
  obtain ⟨hg, hw, hn⟩ := h
  rw [hn]
  exact Nat.div_pos (by omega) hg

theorem GoodGeom.window_le {t : TimedFloat64Buckets} (h : GoodGeom t) :
    t.window ≤ t.numBuckets * t.granularity := by
  obtain ⟨hg, hw, hn⟩ := h
  rw [hn]
  exact window_le_numBuckets_mul _ _ hg

theorem filledBucketCount_eq (t : TimedFloat64Buckets) (lw fw : Nat)
    (hlw : t.lastWrite = some lw) (hfw : t.firstWrite = some fw) :
    t.filledBucketCount = min ((lw - fw) / t.granularity + 1) t.numBuckets := by
  unfold TimedFloat64Buckets.filledBucketCount
  rw [hlw, hfw]

theorem record_static (t : TimedFloat64Buckets) (tm : Nat) (v : ℚ) :
    (t.record tm v).numBuckets = t.numBuckets ∧
    (t.record tm v).granularity = t.granularity ∧
    (t.record tm v).window = t.window := by
  unfold TimedFloat64Buckets.record
  cases hlw : t.lastWrite with
  | none => exact ⟨rfl, rfl, rfl⟩
  | some lw =>
    dsimp only
    split_ifs <;> exact ⟨rfl, rfl, rfl⟩

theorem record_geom (t : TimedFloat64Buckets) (tm : Nat) (v : ℚ)
    (h : GoodGeom t) : GoodGeom (t.record tm v) := by
  obtain ⟨h1, h2, h3⟩ := h
  obtain ⟨e1, e2, e3⟩ := record_static t tm v
  refine ⟨?_, ?_, ?_⟩
  · rw [e2]; exact h1
  · rw [e3]; exact h2
  · rw [e1, e2, e3]; exact h3

theorem addToBucket_inv (t : TimedFloat64Buckets) (wi : Nat) (v : ℚ)
    (hn : 0 < t.numBuckets) (lw fw : Nat)
    (hlw : t.lastWrite = some lw) (hfw : t.firstWrite = some fw)
    (hfl : fw ≤ lw) (hdf : t.granularity ∣ fw) (hdl : t.granularity ∣ lw)
    (htot : t.windowTotal = ∑ j ∈ Finset.range t.numBuckets, t.buckets j)
    (hout : ∀ j, t.numBuckets ≤ j → t.buckets j = 0)
    (hrec : ∀ j, j < t.numBuckets → t.buckets j ≠ 0 →
      ∃ k, k < t.filledBucketCount ∧ (lw / t.granularity - k) % t.numBuckets = j)
    (hcov : ∃ k0, k0 < t.filledBucketCount ∧
      (lw / t.granularity - k0) % t.numBuckets = wi % t.numBuckets) :
    BucketInv (t.addToBucket wi v) := by
  have hplt : wi % t.numBuckets < t.numBuckets := Nat.mod_lt wi hn
  constructor
  · intro j hj
    unfold TimedFloat64Buckets.addToBucket at hj ⊢
    dsimp only at hj ⊢
    rw [Function.update_noteq (by omega)]
    exact hout j hj
  · right
    refine ⟨lw, fw, hlw, hfw, hfl, hdf, hdl, ?_, ?_⟩
    · unfold TimedFloat64Buckets.addToBucket
      dsimp only
      rw [sum_update_add _ _ _ hplt v, htot]
    · intro j hj hnz
      by_cases hj2 : j = wi % t.numBuckets
      · subst hj2
        exact hcov
      · unfold TimedFloat64Buckets.addToBucket at hnz
        dsimp only at hnz
        rw [Function.update_noteq hj2] at hnz
        exact hrec j hj hnz

theorem past_write_inv (t : TimedFloat64Buckets) (tm : Nat) (v : ℚ)
    (hg : 0 < t.granularity) (hn : 0 < t.numBuckets)
    (hwle : t.window ≤ t.numBuckets * t.granularity)
    (lw fw fwn : Nat)
    (hlw : t.lastWrite = some lw) (hfw : t.firstWrite = some fw)
    (hfl : fw ≤ lw) (hdf : t.granularity ∣ fw) (hdl : t.granularity ∣ lw)
    (htot : t.windowTotal = ∑ j ∈ Finset.range t.numBuckets, t.buckets j)
    (hout : ∀ j, t.numBuckets ≤ j → t.buckets j = 0)
    (hrec : ∀ j, j < t.numBuckets → t.buckets j ≠ 0 →
      ∃ k, k < t.filledBucketCount ∧ (lw / t.granularity - k) % t.numBuckets = j)
    (hfwn_fw : fwn ≤ fw) (hfwn_bt : fwn ≤ tm / t.granularity * t.granularity)
    (hdfwn : t.granularity ∣ fwn)
    (hbtlt : tm / t.granularity * t.granularity < lw)
    (hnodrop : lw ≤ tm / t.granularity * t.granularity + t.window) :
    BucketInv (TimedFloat64Buckets.addToBucket
      { t with firstWrite := some fwn, lastWrite := some lw } (t.timeToIndex tm) v) := by
  have hbtdvd : t.granularity ∣ tm / t.granularity * t.granularity :=
    ⟨tm / t.granularity, Nat.mul_comm _ _⟩
  have hbtdiv : tm / t.granularity * t.granularity / t.granularity = tm / t.granularity :=
    Nat.mul_div_cancel _ hg
  have hwilt : tm / t.granularity < lw / t.granularity := by
    have := nat_div_lt_div_of_dvd t.granularity _ _ hg hbtdvd hdl hbtlt
    rwa [hbtdiv] at this
  obtain ⟨k0, hk0⟩ : ∃ k0, lw / t.granularity - tm / t.granularity = k0 := ⟨_, rfl⟩
  have hdecomp : lw / t.granularity = tm / t.granularity + k0 := by omega
  have hsub : (lw - tm / t.granularity * t.granularity) / t.granularity = k0 := by
    rw [nat_div_sub_of_dvd _ _ _ hg hdl hbtdvd, hbtdiv, hk0]
  have hsubw : (lw - tm / t.granularity * t.granularity) / t.granularity ≤
      t.window / t.granularity :=
    Nat.div_le_div_right (by omega)
  have hwg : t.window / t.granularity ≤ t.numBuckets := by
    have := Nat.div_le_div_right (c := t.granularity) hwle
    rwa [Nat.mul_div_cancel _ hg] at this
  have hk0n : k0 ≤ t.numBuckets := by omega
  have hbsub : (lw - tm / t.granularity * t.granularity) / t.granularity ≤
      (lw - fwn) / t.granularity :=
    Nat.div_le_div_right (by omega)
  have hcov0 : k0 ≤ (lw - fwn) / t.granularity := by omega
  refine addToBucket_inv _ _ v hn lw fwn rfl rfl (by omega) hdfwn hdl htot hout ?_ ?_
  · intro j hj hnz
    obtain ⟨k, hk, hkj⟩ := hrec j hj hnz
    refine ⟨k, ?_, hkj⟩
    rw [filledBucketCount_eq t lw fw hlw hfw] at hk
    rw [filledBucketCount_eq { t with firstWrite := some fwn, lastWrite := some lw } lw fwn rfl rfl]
    dsimp only
    have hmono : (lw - fw) / t.granularity ≤ (lw - fwn) / t.granularity :=
      Nat.div_le_div_right (by omega)
    omega
  · by_cases hcase : k0 = t.numBuckets
    · refine ⟨0, ?_, ?_⟩
      · rw [filledBucketCount_eq { t with firstWrite := some fwn, lastWrite := some lw } lw fwn rfl rfl]
        dsimp only
        omega
      · show (lw / t.granularity - 0) % t.numBuckets = tm / t.granularity % t.numBuckets
        rw [Nat.sub_zero, hdecomp, hcase, Nat.add_mod_right]
    · refine ⟨k0, ?_, ?_⟩
      · rw [filledBucketCount_eq { t with firstWrite := some fwn, lastWrite := some lw } lw fwn rfl rfl]
        dsimp only
        omega
      · show (lw / t.granularity - k0) % t.numBuckets = tm / t.granularity % t.numBuckets
        have heq : lw / t.granularity - k0 = tm / t.granularity :=
          Nat.sub_eq_of_eq_add hdecomp
        rw [heq]

theorem clear_write_inv (t : TimedFloat64Buckets) (tm : Nat) (v : ℚ)
    (hg : 0 < t.granularity) (hn : 0 < t.numBuckets)
    (hwle : t.window ≤ t.numBuckets * t.granularity)
    (lw fw : Nat)
    (hlw : t.lastWrite = some lw) (hfw : t.firstWrite = some fw)
    (hfl : fw ≤ lw) (hdf : t.granularity ∣ fw) (hdl : t.granularity ∣ lw)
    (htot : t.windowTotal = ∑ j ∈ Finset.range t.numBuckets, t.buckets j)
    (hout : ∀ j, t.numBuckets ≤ j → t.buckets j = 0)
    (hrec : ∀ j, j < t.numBuckets → t.buckets j ≠ 0 →
      ∃ k, k < t.filledBucketCount ∧ (lw / t.granularity - k) % t.numBuckets = j)
    (hlt : lw < tm / t.granularity * t.granularity)
    (hjump : tm / t.granularity * t.granularity - lw < t.window) :
    BucketInv (TimedFloat64Buckets.addToBucket
      { t with
        buckets := (clearBuckets t.buckets t.windowTotal t.numBuckets
          (List.range' (t.timeToIndex lw + 1) (t.timeToIndex tm - t.timeToIndex lw))).1
        windowTotal := (clearBuckets t.buckets t.windowTotal t.numBuckets
          (List.range' (t.timeToIndex lw + 1) (t.timeToIndex tm - t.timeToIndex lw))).2
        firstWrite := some fw
        lastWrite := some (tm / t.granularity * t.granularity) }
      (t.timeToIndex tm) v) := by
  have hbtdvd : t.granularity ∣ tm / t.granularity * t.granularity :=
    ⟨tm / t.granularity, Nat.mul_comm _ _⟩
  have hbtdiv : tm / t.granularity * t.granularity / t.granularity = tm / t.granularity :=
    Nat.mul_div_cancel _ hg
  have hd1 : lw / t.granularity < tm / t.granularity := by
    have := nat_div_lt_div_of_dvd t.granularity _ _ hg hdl hbtdvd hlt
    rwa [hbtdiv] at this
  obtain ⟨d, hd⟩ : ∃ d, tm / t.granularity - lw / t.granularity = d := ⟨_, rfl⟩
  have hdd : tm / t.granularity = lw / t.granularity + d := by omega
  have hdpos : 0 < d := by omega
  have hdeq : (tm / t.granularity * t.granularity - lw) / t.granularity = d := by
    rw [nat_div_sub_of_dvd _ _ _ hg hbtdvd hdl, hbtdiv, hd]
  have hdn : d < t.numBuckets := by
    have h1 : (tm / t.granularity * t.granularity - lw) / t.granularity <
        t.numBuckets := by
      rw [Nat.div_lt_iff_lt_mul hg]
      omega
    omega
  have hfwle : fw / t.granularity ≤ lw / t.granularity :=
    Nat.div_le_div_right hfl
  have hfwdiv : (lw - fw) / t.granularity = lw / t.granularity - fw / t.granularity :=
    nat_div_sub_of_dvd _ _ _ hg hdl hdf
  have hbfdiv : (tm / t.granularity * t.granularity - fw) / t.granularity =
      tm / t.granularity - fw / t.granularity := by
    rw [nat_div_sub_of_dvd _ _ _ hg hbtdvd hdf, hbtdiv]
  have hlwd : (lw - fw) / t.granularity ≤ lw / t.granularity :=
    Nat.div_le_div_right (Nat.sub_le _ _)
  refine addToBucket_inv _ _ v hn (tm / t.granularity * t.granularity) fw rfl rfl
    (by omega) hdf hbtdvd ?_ ?_ ?_ ?_
  · exact clearBuckets_snd t.numBuckets hn _ t.buckets t.windowTotal htot
  · intro j hj
    show (clearBuckets t.buckets t.windowTotal t.numBuckets _).1 j = 0
    rw [clearBuckets_fst]
    split_ifs
    · rfl
    · exact hout j hj
  · intro j hj hnz
    have hbk : ∀ x, ({ t with
        buckets := (clearBuckets t.buckets t.windowTotal t.numBuckets
          (List.range' (t.timeToIndex lw + 1) (t.timeToIndex tm - t.timeToIndex lw))).1
        windowTotal := (clearBuckets t.buckets t.windowTotal t.numBuckets
          (List.range' (t.timeToIndex lw + 1) (t.timeToIndex tm - t.timeToIndex lw))).2
        firstWrite := some fw
        lastWrite := some (tm / t.granularity * t.granularity) } :
          TimedFloat64Buckets).buckets x =
        (clearBuckets t.buckets t.windowTotal t.numBuckets
          (List.range' (t.timeToIndex lw + 1) (t.timeToIndex tm - t.timeToIndex lw))).1 x :=
      fun x => rfl
    rw [hbk j, clearBuckets_fst] at hnz
    by_cases hclr : ∃ i ∈ List.range' (t.timeToIndex lw + 1)
        (t.timeToIndex tm - t.timeToIndex lw), i % t.numBuckets = j
    · rw [if_pos hclr] at hnz
      exact absurd rfl hnz
    · rw [if_neg hclr] at hnz
      obtain ⟨k, hk, hkj⟩ := hrec j hj hnz
      rw [filledBucketCount_eq t lw fw hlw hfw] at hk
      have hklw : k ≤ lw / t.granularity := by omega
      obtain ⟨jk, hjk⟩ : ∃ x, lw / t.granularity - k = x := ⟨_, rfl⟩
      have hjk2 : lw / t.granularity = jk + k := by omega
      rw [hjk] at hkj
      have hkd : k + d < t.numBuckets := by
        by_contra hge
        push_neg at hge
        apply hclr
        obtain ⟨nk, hnk⟩ : ∃ x, t.numBuckets - k = x := ⟨_, rfl⟩
        have hnk2 : t.numBuckets = nk + k := by omega
        refine ⟨lw / t.granularity + nk, ?_, ?_⟩
        · rw [List.mem_range'_1]
          show t.timeToIndex lw + 1 ≤ lw / t.granularity + nk ∧
            lw / t.granularity + nk <
              t.timeToIndex lw + 1 + (t.timeToIndex tm - t.timeToIndex lw)
          show lw / t.granularity + 1 ≤ lw / t.granularity + nk ∧
            lw / t.granularity + nk <
              lw / t.granularity + 1 + (tm / t.granularity - lw / t.granularity)
          omega
        · have heq : lw / t.granularity + nk = jk + t.numBuckets := by omega
          rw [heq, Nat.add_mod_right]
          exact hkj
      refine ⟨k + d, ?_, ?_⟩
      · rw [filledBucketCount_eq _ _ fw rfl rfl]
        dsimp only
        have hgoal : k + d ≤ (tm / t.granularity * t.granularity - fw) / t.granularity := by
          omega
        omega
      · show (tm / t.granularity * t.granularity / t.granularity -
            (k + d)) % t.numBuckets = j
        rw [hbtdiv]
        have heq : tm / t.granularity - (k + d) = jk := by omega
        rw [heq]
        exact hkj
  · refine ⟨0, ?_, ?_⟩
    · rw [filledBucketCount_eq _ _ fw rfl rfl]
      dsimp only
      omega
    · show (tm / t.granularity * t.granularity / t.granularity - 0) % t.numBuckets =
          tm / t.granularity % t.numBuckets
      rw [hbtdiv, Nat.sub_zero]

theorem record_inv (t : TimedFloat64Buckets) (tm : Nat) (v : ℚ)
    (hgeom : GoodGeom t) (hinv : BucketInv t) : BucketInv (t.record tm v) := by
  have hg : 0 < t.granularity := hgeom.1
  have hn : 0 < t.numBuckets := hgeom.numBuckets_pos
  have hwle := hgeom.window_le
  have hbtdvd : t.granularity ∣ tm / t.granularity * t.granularity :=
    ⟨tm / t.granularity, Nat.mul_comm _ _⟩
  obtain ⟨hout, hmain⟩ := hinv
  unfold TimedFloat64Buckets.record
  rcases hmain with ⟨hlwn, hfwn, htot0, hzero⟩ |
    ⟨lw, fw, hlw, hfw, hfl, hdf, hdl, htot, hrec⟩
  · rw [hlwn]
    dsimp only
    refine addToBucket_inv _ _ v hn (tm / t.granularity * t.granularity)
      (tm / t.granularity * t.granularity) rfl rfl le_rfl hbtdvd hbtdvd ?_ ?_ ?_ ?_
    · show (0 : ℚ) = ∑ _j ∈ Finset.range t.numBuckets, (0 : ℚ)
      rw [Finset.sum_const_zero]
    · intro j hj
      rfl
    · intro j hj hnz
      exact absurd rfl hnz
    · refine ⟨0, ?_, ?_⟩
      · rw [filledBucketCount_eq _ _ _ rfl rfl]
        dsimp only
        rw [Nat.sub_self, Nat.zero_div]
        omega
      · show (tm / t.granularity * t.granularity / t.granularity - 0) % t.numBuckets =
            tm / t.granularity % t.numBuckets
        rw [Nat.mul_div_cancel _ hg, Nat.sub_zero]
  · rw [hlw]
    dsimp only
    by_cases h1 : lw = tm / t.granularity * t.granularity
    · rw [if_pos h1]
      refine addToBucket_inv t _ v hn lw fw hlw hfw hfl hdf hdl htot hout hrec ?_
      refine ⟨0, ?_, ?_⟩
      · rw [filledBucketCount_eq t lw fw hlw hfw]
        have hnn : 0 ≤ (lw - fw) / t.granularity := Nat.zero_le _
        omega
      · show (lw / t.granularity - 0) % t.numBuckets =
            tm / t.granularity % t.numBuckets
        rw [Nat.sub_zero, h1, Nat.mul_div_cancel _ hg]
    · rw [if_neg h1]
      by_cases h2 : tm / t.granularity * t.granularity + t.window < lw
      · rw [if_pos h2]
        exact ⟨hout, Or.inr ⟨lw, fw, hlw, hfw, hfl, hdf, hdl, htot, hrec⟩⟩
      · rw [if_neg h2]
        rw [hfw]
        dsimp only
        by_cases h3 : lw < tm / t.granularity * t.granularity
        · rw [if_pos h3]
          by_cases h4 : t.window ≤ tm / t.granularity * t.granularity - lw
          · rw [if_pos h4]
            refine addToBucket_inv _ _ v hn (tm / t.granularity * t.granularity)
              (tm / t.granularity * t.granularity) rfl rfl le_rfl hbtdvd hbtdvd
              ?_ ?_ ?_ ?_
            · show (0 : ℚ) = ∑ _j ∈ Finset.range t.numBuckets, (0 : ℚ)
              rw [Finset.sum_const_zero]
            · intro j hj
              rfl
            · intro j hj hnz
              exact absurd rfl hnz
            · refine ⟨0, ?_, ?_⟩
              · rw [filledBucketCount_eq _ _ _ rfl rfl]
                dsimp only
                rw [Nat.sub_self, Nat.zero_div]
                omega
              · show (tm / t.granularity * t.granularity / t.granularity - 0) %
                    t.numBuckets = tm / t.granularity % t.numBuckets
                rw [Nat.mul_div_cancel _ hg, Nat.sub_zero]
          · rw [if_neg h4]
            have hfwlt : ¬(tm / t.granularity * t.granularity < fw) := by omega
            rw [if_neg hfwlt]
            exact clear_write_inv t tm v hg hn hwle lw fw hlw hfw hfl hdf hdl htot
              hout hrec h3 (by omega)
        · rw [if_neg h3]
          by_cases h5 : tm / t.granularity * t.granularity < fw
          · rw [if_pos h5]
            exact past_write_inv t tm v hg hn hwle lw fw
              (tm / t.granularity * t.granularity) hlw hfw hfl hdf hdl htot hout hrec
              (le_of_lt h5) le_rfl hbtdvd (by omega) (by omega)
          · rw [if_neg h5]
            exact past_write_inv t tm v hg hn hwle lw fw fw hlw hfw hfl hdf hdl htot
              hout hrec le_rfl (by omega) hdf (by omega) (by omega)

theorem sumRecent_eq_windowTotal (t : TimedFloat64Buckets) (hgeom : GoodGeom t)
    (hinv : BucketInv t) : t.windowTotal = t.sumRecentBuckets := by
  have hn : 0 < t.numBuckets := hgeom.numBuckets_pos
  obtain ⟨hout, hmain⟩ := hinv
  rcases hmain with ⟨hlwn, hfwn, htot0, hzero⟩ |
    ⟨lw, fw, hlw, hfw, hfl, hdf, hdl, htot, hrec⟩
  · unfold TimedFloat64Buckets.sumRecentBuckets
    rw [hlwn, htot0]
  · unfold TimedFloat64Buckets.sumRecentBuckets
    rw [hlw, htot]
    have hfill_le : t.filledBucketCount ≤ t.numBuckets := by
      rw [filledBucketCount_eq t lw fw hlw hfw]
      omega
    have hfill_lw : ∀ k, k < t.filledBucketCount → k ≤ lw / t.granularity := by
      intro k hk
      rw [filledBucketCount_eq t lw fw hlw hfw] at hk
      have h1 : (lw - fw) / t.granularity ≤ lw / t.granularity :=
        Nat.div_le_div_right (Nat.sub_le _ _)
      omega
    have hinj : ∀ k1 ∈ Finset.range t.filledBucketCount,
        ∀ k2 ∈ Finset.range t.filledBucketCount,
        (lw / t.granularity - k1) % t.numBuckets =
          (lw / t.granularity - k2) % t.numBuckets → k1 = k2 := by
      intro k1 h1 k2 h2 he
      exact mod_cancel_sub t.numBuckets (lw / t.granularity) k1 k2
        (hfill_lw _ (Finset.mem_range.mp h1)) (hfill_lw _ (Finset.mem_range.mp h2))
        (lt_of_lt_of_le (Finset.mem_range.mp h1) hfill_le)
        (lt_of_lt_of_le (Finset.mem_range.mp h2) hfill_le) he
    have hsubset : (Finset.range t.filledBucketCount).image
        (fun k => (lw / t.granularity - k) % t.numBuckets) ⊆
          Finset.range t.numBuckets := by
      intro j hj
      obtain ⟨k, hk, rfl⟩ := Finset.mem_image.mp hj
      exact Finset.mem_range.mpr (Nat.mod_lt _ hn)
    have hzero2 : ∀ j ∈ Finset.range t.numBuckets,
        j ∉ (Finset.range t.filledBucketCount).image
          (fun k => (lw / t.granularity - k) % t.numBuckets) → t.buckets j = 0 := by
      intro j hjn hjnot
      by_contra hnz
      obtain ⟨k, hk, hkj⟩ := hrec j (Finset.mem_range.mp hjn) hnz
      exact hjnot (Finset.mem_image.mpr ⟨k, Finset.mem_range.mpr hk, hkj⟩)
    calc ∑ j ∈ Finset.range t.numBuckets, t.buckets j
        = ∑ j ∈ (Finset.range t.filledBucketCount).image
            (fun k => (lw / t.granularity - k) % t.numBuckets), t.buckets j :=
          (Finset.sum_subset hsubset hzero2).symm
      _ = ∑ k ∈ Finset.range t.filledBucketCount,
            t.buckets ((lw / t.granularity - k) % t.numBuckets) :=
          Finset.sum_image hinj

theorem applyRecords_good (rs : List (Nat × ℚ)) :
    ∀ t : TimedFloat64Buckets, GoodGeom t → BucketInv t →
      GoodGeom (applyRecords t rs) ∧ BucketInv (applyRecords t rs) := by
  induction rs with
  | nil =>
    intro t h1 h2
    exact ⟨h1, h2⟩
  | cons p rest ih =>
    intro t h1 h2
    obtain ⟨tm, v⟩ := p
    exact ih _ (record_geom t tm v h1) (record_inv t tm v h1 h2)

/-- C8 (confirmed): starting from a freshly constructed bucket window,
after any sequence of `Record` calls the state satisfies: `windowTotal`
equals the sum of the `filledBucketCount` most-recent buckets, where
`filledBucketCount = min((lastWrite - firstWrite)/granularity + 1,
bucketCount)`. -/
theorem bucket_total_consistency (window granularity : Nat)
    (hg : 0 < granularity) (hw : 0 < window) (rs : List (Nat × ℚ)) :
    (applyRecords (NewTimedFloat64Buckets window granularity) rs).windowTotal =
      (applyRecords (NewTimedFloat64Buckets window granularity) rs).sumRecentBuckets := by
  have hgeom : GoodGeom (NewTimedFloat64Buckets window granularity) := ⟨hg, hw, rfl⟩
  have hinv : BucketInv (NewTimedFloat64Buckets window granularity) :=
    ⟨fun j hj => rfl, Or.inl ⟨rfl, rfl, rfl, fun j => rfl⟩⟩
  obtain ⟨hgeom2, hinv2⟩ := applyRecords_good rs _ hgeom hinv
  exact sumRecent_eq_windowTotal _ hgeom2 hinv2

/-- C8 witness: a 5-bucket window (granularity 1s) fed in-order,
out-of-order, forward-jump and full-reset records; the invariant theorem
applies at this concrete input. -/
theorem bucket_total_consistency_witness :
    (applyRecords (NewTimedFloat64Buckets 5 1)
      [(3, 5), (1, 2), (7, 4), (20, 1)]).windowTotal =
      (applyRecords (NewTimedFloat64Buckets 5 1)
        [(3, 5), (1, 2), (7, 4), (20, 1)]).sumRecentBuckets :=
  bucket_total_consistency 5 1 (by decide) (by decide) [(3, 5), (1, 2), (7, 4), (20, 1)]

/-- C9 (corrected): two runs that construct a scaler with identical config
AND an identical construction-time wall-clock reading, then feed identical
sequences of (snapshot, now) inputs, produce identical output sequences of
recommendations. The extra construction-time hypothesis is necessary:
`NewSlidingWindowAutoscaler` reads the wall clock (`time.Now()`) to seed
`burstTime`, so construction is not clock-free, as the counterexample
shows; every later operation takes `now` as an explicit parameter. -/
theorem scaling_deterministic_given_construction_time
    (cfg1 cfg2 : AutoscalerConfig) (t1 t2 : ℤ)
    (ins1 ins2 : List (MetricSnapshot × ℤ))
    (hcfg : cfg1 = cfg2) (ht : t1 = t2) (hins : ins1 = ins2) :
    runScale (newSlidingWindowAutoscaler cfg1 t1) ins1 =
      runScale (newSlidingWindowAutoscaler cfg2 t2) ins2 := by
  subst hcfg
  subst ht
  subst hins
  rfl

/-- C9 witness: determinism at a concrete config, construction time and
input sequence. -/
theorem scaling_deterministic_witness :
    runScale (newSlidingWindowAutoscaler
        ⟨2, 2, 100, 0, 2, 60, 0, 0, 0, 1⟩ 5) [(⟨300, 300, 2⟩, 10), (⟨50, 50, 6⟩, 40)] =
      runScale (newSlidingWindowAutoscaler
        ⟨2, 2, 100, 0, 2, 60, 0, 0, 0, 1⟩ 5) [(⟨300, 300, 2⟩, 10), (⟨50, 50, 6⟩, 40)] :=
  scaling_deterministic_given_construction_time _ _ _ _ _ _ rfl rfl rfl

end Libkpa
